import Mathlib

/-!
Verification of the platform layer of `cargo-script` (`src/platform.rs`):
path serialization codec, cache/config directory resolution, legacy cache
migration, and the time source.  Shallow embedding: paths are lists of
components (`List String`), serialized paths are byte lists (`List Nat`,
each byte `< 256`), wide characters are 16-bit units (`Nat < 65536`), the
filesystem portion relevant to migration is an explicit record threaded
through the functions, and machine-integer casts/overflow are written as
explicit `% 2 ^ w` on `Nat`.
-/

namespace CargoScript

/-- `MigrationKind` from `platform.rs`: `DryRun` or `ForReal`. -/
inductive MigrationKind where
  | DryRun
  | ForReal
deriving Repr, DecidableEq, BEq

/-- `MigrationKind::for_real`: `*self == MigrationKind::ForReal`. -/
def MigrationKind.for_real (k : MigrationKind) : Bool :=
  k == MigrationKind.ForReal

/-! ## Path codec (unix byte-native variant)

On unix, `write_path` emits the raw bytes of the path's `OsStr`
(`w.write_all(path.as_os_str().as_bytes())`) and `read_path` reads the
whole stream back into an `OsStr` (`OsStr::from_bytes(&buf)`), both
identity transforms on the byte sequence.  A unix path is modelled by its
byte sequence. -/

/-- Unix `write_path`: the byte stream written is exactly the path's bytes. -/
def write_path_unix (path : List Nat) : List Nat :=
  path

/-- Unix `read_path`: reinterprets the whole byte stream as a path. -/
def read_path_unix (bytes : List Nat) : List Nat :=
  bytes

/-! ## Path codec (windows wide-character variant)

On windows a path is a sequence of 16-bit units (`encode_wide`).
`write_path` emits, per unit `word`, the two bytes
`lo = (word & 0xff) as u8` and `hi = (word >> 8) as u8`, low byte first.
`read_path` pairs the bytes back up in a loop
`while let Some(lo) = it.next() { let hi = it.next().unwrap(); ... }`;
on an odd-length stream the `unwrap()` of the missing high byte panics. -/

/-- Windows `write_path`: serialize each 16-bit unit as `[lo, hi]`
(`(word & 0xff) as u8`, `(word >> 8) as u8`; the `u8` cast is `% 256`). -/
def write_path_windows : List Nat → List Nat
  | [] => []
  | word :: ws => (word &&& 0xff) :: ((word >>> 8) % 256) :: write_path_windows ws

/-- The byte-pairing loop of windows `read_path`: consumes bytes two at a
time, making the unit `lo as u16 | ((hi as u16) << 8)`; `none` models the
`unwrap()` panic on a trailing unpaired byte. -/
def decodeWords : List Nat → Option (List Nat)
  | [] => some []
  | [_] => none
  | lo :: hi :: rest => (decodeWords rest).map (fun ws => (lo ||| (hi <<< 8)) :: ws)

/-- Possible outcomes of windows `read_path` on an already-read byte
stream: a decoded path, an I/O-style error value, a decode-error value
(the channel the spec asks for; the code never produces either error
value once the bytes are in hand), or a panic. -/
inductive ReadOutcome where
  | ok (words : List Nat)
  | ioErr
  | decodeErr
  | panicked
deriving Repr, DecidableEq

/-- Windows `read_path` on a fully-read byte stream. -/
def read_path_windows (bytes : List Nat) : ReadOutcome :=
  match decodeWords bytes with
  | some words => ReadOutcome.ok words
  | none => ReadOutcome.panicked

/-! ## Errors -/

/-- Modelled from the spec: the repository's `error` module (`Blame`,
`MainError`) is not among the provided sources.  The spec's error
taxonomy (§7) distinguishes human-attributable configuration errors from
environment-attributable problems; `Blame` records that attribution. -/
inductive Blame where
  | human
  | internal
deriving Repr, DecidableEq

/-- Modelled from the spec: a `MainError` carries a blame tag and a
descriptive message, as used by `(Blame::Human, msg).into()` in
`get_cache_dir`. -/
structure MainError where
  blame : Blame
  msg : String
deriving Repr, DecidableEq

deriving instance DecidableEq for Except

/-! ## Filesystem / environment state

The migrator and the unix resolver consult the environment variables
`CARGO_HOME` and `HOME` and probe exactly these filesystem facts below
the `CARGO_HOME` root: existence of the legacy directory
`$CARGO_HOME/.cargo` (`old_base`), existence and contents of its two
legacy subdirectories `script-cache` and `binary-cache`, existence and
contents of the new-location copies `$CARGO_HOME/script-cache` and
`$CARGO_HOME/binary-cache`, and whether `old_base` holds any further
entries.  A directory tree's contents are an abstract value of type `α`
(an `Option α` field is `some c` when the directory exists with contents
`c`).  Paths are component lists; `Path::join` appends a component. -/
structure Fs (α : Type) where
  cargoHome : Option (List String)
  homeVar : Option (List String)
  oldBaseExists : Bool
  oldScriptCache : Option α
  oldBinaryCache : Option α
  newScriptCache : Option α
  newBinaryCache : Option α
  oldBaseHasOtherEntries : Bool
deriving Repr, DecidableEq

/-- `home.join(".cargo")` — the legacy root `old_base`. -/
def oldBasePath (home : List String) : List String :=
  home ++ [".cargo"]

/-- `old_base.join("script-cache")`. -/
def oldScriptCachePath (home : List String) : List String :=
  oldBasePath home ++ ["script-cache"]

/-- `home.join("script-cache")`. -/
def newScriptCachePath (home : List String) : List String :=
  home ++ ["script-cache"]

/-- `old_base.join("binary-cache")`. -/
def oldBinaryCachePath (home : List String) : List String :=
  oldBasePath home ++ ["binary-cache"]

/-- `home.join("binary-cache")`. -/
def newBinaryCachePath (home : List String) : List String :=
  home ++ ["binary-cache"]

/-! ## Directory resolution (unix) -/

/-- Unix `get_cache_dir`: try `$CARGO_HOME` (keeping the legacy
`$CARGO_HOME/.cargo` while it still holds `script-cache` and/or
`binary-cache`), fall back to `$HOME/.cargo`, else fail. -/
def get_cache_dir (s : Fs α) : Except MainError (List String) :=
  match s.cargoHome with
  | some home =>
    if s.oldBaseExists && (s.oldScriptCache.isSome || s.oldBinaryCache.isSome) then
      Except.ok (oldBasePath home)
    else
      Except.ok home
  | none =>
    match s.homeVar with
    | some home => Except.ok (home ++ [".cargo"])
    | none => Except.error ⟨Blame.human, "neither $CARGO_HOME nor $HOME is defined"⟩

/-- Unix `get_config_dir`: "Currently, this appears to be the same as the
cache directory." -/
def get_config_dir (s : Fs α) : Except MainError (List String) :=
  get_cache_dir s

/-! ## Directory resolution (windows)

The windows variant asks the shell for known folders:
`SHGetKnownFolderPath(FOLDERID_LocalAppData)` for the cache directory and
`SHGetKnownFolderPath(FOLDERID_RoamingAppData)` for the config directory,
each joined with `"Cargo"`.  The shell lookup is modelled as a function
from folder id to either a path or an `HRESULT` failure code. -/

/-- The two known-folder ids the windows resolver uses. -/
inductive KnownFolderId where
  | localAppData
  | roamingAppData
deriving Repr, DecidableEq

/-- The windows environment: what `SHGetKnownFolderPath` reports per id. -/
structure WinEnv where
  knownFolderPath : KnownFolderId → Except Int (List String)

/-- Windows `get_cache_dir`: `SHGetKnownFolderPath(FOLDERID_LocalAppData)`
joined with `"Cargo"`; a failed lookup becomes an error via
`WinError`'s display text `HRESULT(..)`. -/
def get_cache_dir_windows (e : WinEnv) : Except MainError (List String) :=
  match e.knownFolderPath KnownFolderId.localAppData with
  | Except.ok dir => Except.ok (dir ++ ["Cargo"])
  | Except.error h => Except.error ⟨Blame.internal, "HRESULT(" ++ toString h ++ ")"⟩

/-- Windows `get_config_dir`:
`SHGetKnownFolderPath(FOLDERID_RoamingAppData)` joined with `"Cargo"`. -/
def get_config_dir_windows (e : WinEnv) : Except MainError (List String) :=
  match e.knownFolderPath KnownFolderId.roamingAppData with
  | Except.ok dir => Except.ok (dir ++ ["Cargo"])
  | Except.error h => Except.error ⟨Blame.internal, "HRESULT(" ++ toString h ++ ")"⟩

/-! ## Legacy migration (unix)

`migrate_0_2_0` is embedded as a state-passing function: it returns the
user-facing report (the `log` vector, as structured lines) and the
filesystem state after the run.  The filesystem primitives are total in
this model — the spec assumes no concurrent external mutation, every
`rename` here has an existing source and a non-existing destination, the
`read_dir` target was checked to exist, and `remove_dir` is applied to an
empty directory — so the `?` error paths of the source are unreachable
and the result is always `Ok(())`. -/

/-- A line of the user-facing migration report, with the paths the
source's `format!` string mentions. -/
inductive LogLine where
  | didNotMove (oldP newP : List String)
  | moved (oldP newP : List String)
  | removedEmpty (p : List String)
  | notRemoving (p : List String)
deriving Repr, DecidableEq

/-- `migrate_0_2_0`: move `$CARGO_HOME/.cargo/{script-cache,binary-cache}`
up into `$CARGO_HOME`, skip whichever already exists at the new location,
then remove `$CARGO_HOME/.cargo` if it ended up empty.  Renames and the
removal are gated on `kind.for_real()`.  The `moved` line of the
binary-cache branch names `old_script_cache`/`new_script_cache`, exactly
as the source's `format!` arguments do. -/
def migrate_0_2_0 (kind : MigrationKind) (s : Fs α) : List LogLine × Fs α :=
  match s.cargoHome with
  | none => ([], s)
  | some home =>
    if s.oldBaseExists then
      let oldScript := oldScriptCachePath home
      let newScript := newScriptCachePath home
      let (log1, s1) :=
        match s.oldScriptCache, s.newScriptCache with
        | some _, some _ => ([LogLine.didNotMove oldScript newScript], s)
        | some c, none =>
          let s' := if kind.for_real then
              { s with oldScriptCache := none, newScriptCache := some c }
            else s
          ([LogLine.moved oldScript newScript], s')
        | none, _ => ([], s)
      let oldBinary := oldBinaryCachePath home
      let newBinary := newBinaryCachePath home
      let (log2, s2) :=
        match s1.oldBinaryCache, s1.newBinaryCache with
        | some _, some _ => ([LogLine.didNotMove oldBinary newBinary], s1)
        | some c, none =>
          let s' := if kind.for_real then
              { s1 with oldBinaryCache := none, newBinaryCache := some c }
            else s1
          ([LogLine.moved oldScript newScript], s')
        | none, _ => ([], s1)
      let isEmpty := s2.oldScriptCache.isNone && s2.oldBinaryCache.isNone
          && !s2.oldBaseHasOtherEntries
      let (log3, s3) :=
        if isEmpty then
          let s' := if kind.for_real then { s2 with oldBaseExists := false } else s2
          ([LogLine.removedEmpty (oldBasePath home)], s')
        else
          ([LogLine.notRemoving (oldBasePath home)], s2)
      (log1 ++ log2 ++ log3, s3)
    else ([], s)

/-- Unix `migrate_old_data`: run `migrate_0_2_0`, pairing the report with
the outcome (always `Ok(())` in this error-free filesystem model). -/
def migrate_old_data (kind : MigrationKind) (s : Fs α) :
    (List LogLine × Except MainError Unit) × Fs α :=
  let (log, s') := migrate_0_2_0 kind s
  ((log, Except.ok ()), s')

/-- Windows `migrate_old_data`: `(vec![], Ok(()))`, touching nothing.  It
is given the same state-passing type as the unix variant so that its
frame property (the filesystem is neither read nor written) is a stated
equation. -/
def migrate_old_data_windows (kind : MigrationKind) (s : Fs α) :
    (List LogLine × Except MainError Unit) × Fs α :=
  let _ := kind.for_real
  (([], Except.ok ()), s)

/-! ## Time source -/

/-- A `Timespec` as returned by `time::now_utc().to_timespec()`:
seconds (`i64`) and nanoseconds (`i32`) since the epoch. -/
structure Timespec where
  sec : Int
  nsec : Int
deriving Repr, DecidableEq

/-- `current_time`, over the clock reading: pre-epoch components yield
the `0` sentinel, otherwise `(sec as u64 * 1000) + (nsec as u64 / 1_000_000)`
in wrapping `u64` arithmetic (the `% 2 ^ 64`). -/
def current_time (now : Timespec) : Nat :=
  if now.sec < 0 || now.nsec < 0 then 0
  else (now.sec.toNat * 1000 % 2 ^ 64 + now.nsec.toNat / 1000000) % 2 ^ 64

/-- Unix `file_last_modified`, over the metadata query's outcome
(`none` models a failed `file.metadata()`): `mtime` defaults to `0` on
failure, is clamped by `cmp::max(0, ..)`, then `as u64 * 1000` in
wrapping `u64` arithmetic. -/
def file_last_modified (metadata : Option Int) : Nat :=
  let mtime_s := metadata.getD 0
  let mtime_c := max 0 mtime_s
  mtime_c.toNat * 1000 % 2 ^ 64

/-! ## Concrete states used as counterexamples and witnesses -/

/-- `$CARGO_HOME` set (to the root path), legacy root present holding
only `script-cache`; the new location is free. -/
def sLoneScript : Fs Nat :=
  ⟨some [], none, true, some 0, none, none, none, false⟩

/-- `$CARGO_HOME` set, legacy root present with `script-cache`, and the
new-location `script-cache` also present (a conflict). -/
def sScriptConflict : Fs Nat :=
  ⟨some [], none, true, some 0, none, some 1, none, false⟩

/-- `$CARGO_HOME` set, legacy root present holding only `binary-cache`;
the new location is free. -/
def sLoneBinary : Fs Nat :=
  ⟨some [], none, true, none, some 0, none, none, false⟩

/-- `$CARGO_HOME` set, legacy root present, and both caches present in
both the legacy and the new location. -/
def sBothConflict : Fs Nat :=
  ⟨some [], none, true, some 10, some 20, some 11, some 21, false⟩

/-- Override set, no legacy root on disk. -/
def sOverrideOnly : Fs Nat :=
  ⟨some ["ch"], none, false, none, none, none, none, false⟩

/-- Override set, legacy root on disk still holding `script-cache`. -/
def sOverrideLegacy : Fs Nat :=
  ⟨some ["ch"], none, true, some 0, none, none, none, false⟩

/-- Override unset, `$HOME` set. -/
def sHomeOnly : Fs Nat :=
  ⟨none, some ["h"], false, none, none, none, none, false⟩

/-- Neither override nor `$HOME` set. -/
def sNoEnv : Fs Nat :=
  ⟨none, none, false, none, none, none, none, false⟩

/-- A windows environment whose local and roaming known folders differ. -/
def eDistinctFolders : WinEnv :=
  ⟨fun id => match id with
    | KnownFolderId.localAppData => Except.ok ["Local"]
    | KnownFolderId.roamingAppData => Except.ok ["Roaming"]⟩

/-- A windows environment reporting one path for every known folder. -/
def eSameFolders : WinEnv :=
  ⟨fun _ => Except.ok ["Same"]⟩

/-! ## Helper lemmas -/

theorem for_real_DryRun : MigrationKind.DryRun.for_real = false := rfl

theorem for_real_ForReal : MigrationKind.ForReal.for_real = true := rfl

/-- Reassembling `lo ||| (hi <<< 8)` from the two bytes of a 16-bit unit
recovers the unit. -/
theorem decode_encode_word (w : Nat) (hw : w < 65536) :
    ((w &&& 0xff) ||| (((w >>> 8) % 256) <<< 8)) = w := by
  apply Nat.eq_of_testBit_eq
  intro i
  have h255 : (0xff : Nat) = 2 ^ 8 - 1 := by norm_num
  have h256 : (256 : Nat) = 2 ^ 8 := by norm_num
  rw [h255, h256, Nat.and_pow_two_sub_one_eq_mod]
  simp only [Nat.testBit_or, Nat.testBit_shiftLeft, Nat.testBit_mod_two_pow,
    Nat.testBit_shiftRight]
  by_cases h8 : i < 8
  · have : ¬ (8 ≤ i) := by omega
    simp [h8, this]
  · by_cases h16 : i < 16
    · have hle : 8 ≤ i := by omega
      have hlt : i - 8 < 8 := by omega
      have heq : 8 + (i - 8) = i := by omega
      simp [h8, hle, hlt, heq]
    · have hw' : w < 2 ^ i := by
        calc w < 65536 := hw
        _ = 2 ^ 16 := by norm_num
        _ ≤ 2 ^ i := Nat.pow_le_pow_right (by norm_num) (by omega)
      have hbit : w.testBit i = false := Nat.testBit_lt_two_pow hw'
      have hlt : ¬ (i - 8 < 8) := by omega
      simp [h8, hlt, hbit]

/-- The pairing loop inverts the byte serialization, unit by unit. -/
theorem decodeWords_write_path_windows (ws : List Nat)
    (h : ∀ w ∈ ws, w < 65536) :
    decodeWords (write_path_windows ws) = some ws := by
  induction ws with
  | nil => rfl
  | cons w ws ih =>
    have hw : w < 65536 := h w (List.mem_cons_self _ _)
    have h' : ∀ x ∈ ws, x < 65536 := fun x hx => h x (List.mem_cons_of_mem _ hx)
    simp [write_path_windows, decodeWords, ih h', decode_encode_word w hw]

/-- An odd-length byte stream always reaches the `unwrap()` of a missing
high byte. -/
theorem decodeWords_odd (bytes : List Nat) (h : bytes.length % 2 = 1) :
    decodeWords bytes = none := by
  induction bytes using decodeWords.induct with
  | case1 => simp at h
  | case2 => rfl
  | case3 lo hi rest ih =>
    have : rest.length % 2 = 1 := by
      simp only [List.length_cons] at h
      omega
    simp [decodeWords, ih this]

/-! ## Claims -/

/-- Claim C1: decoding the bytes produced by encoding a path yields the
original path byte-for-byte, on both codec variants — on unix for every
byte sequence, on windows for every sequence of 16-bit units. -/
theorem path_codec_roundtrip :
    (∀ p : List Nat, read_path_unix (write_path_unix p) = p)
    ∧ (∀ ws : List Nat, (∀ w ∈ ws, w < 65536) →
        read_path_windows (write_path_windows ws) = ReadOutcome.ok ws) := by
  refine ⟨fun p => rfl, fun ws h => ?_⟩
  simp [read_path_windows, decodeWords_write_path_windows ws h]

/-- Claim C1 witness: the round trip at a concrete unix byte path and at
a concrete wide path containing an unpaired surrogate (`0xD800`). -/
theorem path_codec_roundtrip_witness :
    read_path_unix (write_path_unix [0, 255, 10]) = [0, 255, 10]
    ∧ (∀ w ∈ [0xD800, 0, 0xFFFF], w < 65536)
    ∧ read_path_windows (write_path_windows [0xD800, 0, 0xFFFF])
        = ReadOutcome.ok [0xD800, 0, 0xFFFF] :=
  ⟨path_codec_roundtrip.1 _, by decide, path_codec_roundtrip.2 _ (by decide)⟩

/-- Claim C7 counterexample: on the odd-length input `[0]` the windows
`read_path` panics (the `unwrap()` of the missing high byte); it does not
return a decode-error value distinct from an I/O error. -/
theorem read_path_odd_no_decode_error :
    read_path_windows [0] = ReadOutcome.panicked
    ∧ read_path_windows [0] ≠ ReadOutcome.decodeErr
    ∧ read_path_windows [0] ≠ ReadOutcome.ioErr := by
  decide

/-- Claim C7 as amended: given a byte sequence of odd length, the windows
`read_path` fails by panicking rather than silently dropping the trailing
byte (no error value, decode or I/O, is returned). -/
theorem read_path_odd_length_panics (bytes : List Nat)
    (h : bytes.length % 2 = 1) :
    read_path_windows bytes = ReadOutcome.panicked := by
  simp [read_path_windows, decodeWords_odd bytes h]

/-- Claim C7 witness: the amended statement at the one-byte input. -/
theorem read_path_odd_length_panics_witness :
    ([0] : List Nat).length % 2 = 1
    ∧ read_path_windows [0] = ReadOutcome.panicked :=
  ⟨rfl, read_path_odd_length_panics [0] rfl⟩

/-- Claim C9: the `moved` report line of the binary-cache branch names
the script-cache paths, not the binary-cache paths — the source's
`format!` reuses `old_script_cache`/`new_script_cache`.  Evaluated at a
state where only the legacy `binary-cache` exists: the move that happens
is of `binary-cache`, yet the line names the script-cache paths, which
differ from the binary-cache paths. -/
theorem migrate_binary_move_logs_script_paths :
    (migrate_old_data MigrationKind.ForReal sLoneBinary).1.1
        = [LogLine.moved (oldScriptCachePath []) (newScriptCachePath []),
           LogLine.removedEmpty (oldBasePath [])]
    ∧ sLoneBinary.oldBinaryCache = some 0
    ∧ sLoneBinary.oldScriptCache = none
    ∧ (migrate_old_data MigrationKind.ForReal sLoneBinary).2.newBinaryCache = some 0
    ∧ oldScriptCachePath [] ≠ oldBinaryCachePath []
    ∧ newScriptCachePath [] ≠ newBinaryCachePath [] := by
  refine ⟨rfl, rfl, rfl, rfl, ?_, ?_⟩ <;> decide

/-- Claim C10: the windows `migrate_old_data` is a total no-op in every
mode: an empty report paired with success, and the filesystem state is
neither consulted nor changed. -/
theorem migrate_old_data_windows_noop {α : Type} (kind : MigrationKind)
    (s : Fs α) :
    migrate_old_data_windows kind s = (([], Except.ok ()), s) :=
  rfl

/-- Claim C2 counterexample: on a snapshot whose legacy root holds only
`script-cache` (new location free), the dry-run report ends with
`Not removing ...: not empty.` while the for-real report ends with
`Removed empty directory ...` — the dry run evaluates the final
emptiness check against the unmodified filesystem. -/
theorem migrate_dry_run_report_differs :
    (migrate_old_data MigrationKind.DryRun sLoneScript).1.1
      ≠ (migrate_old_data MigrationKind.ForReal sLoneScript).1.1 := by
  decide

/-- Claim C2 as amended: for a fixed filesystem state the dry-run and
for-real reports have the same length, agree on every line except
possibly the last (the cleanup decision on the legacy root, which the
dry run evaluates against the unmodified filesystem), and carry the same
outcome. -/
theorem migrate_dry_run_report_agree_except_cleanup {α : Type} (s : Fs α) :
    ((migrate_old_data MigrationKind.DryRun s).1.1).dropLast
        = ((migrate_old_data MigrationKind.ForReal s).1.1).dropLast
    ∧ ((migrate_old_data MigrationKind.DryRun s).1.1).length
        = ((migrate_old_data MigrationKind.ForReal s).1.1).length
    ∧ (migrate_old_data MigrationKind.DryRun s).1.2
        = (migrate_old_data MigrationKind.ForReal s).1.2 := by
  obtain ⟨ch, hv, ob, osc, obc, nsc, nbc, other⟩ := s
  cases ch <;> cases ob <;> cases osc <;> cases obc <;> cases nsc <;>
    cases nbc <;> cases other <;>
    simp [migrate_old_data, migrate_0_2_0, for_real_DryRun, for_real_ForReal,
      List.dropLast]

/-- Claim C3 counterexample: from a snapshot where `script-cache` exists
both in the legacy root and at the new location, the first for-real run
succeeds but the second for-real run's report is not empty (it repeats
the skip line and the not-removing line). -/
theorem migrate_second_run_report_nonempty :
    (migrate_old_data MigrationKind.ForReal
        (migrate_old_data MigrationKind.ForReal sScriptConflict).2).1.1 ≠ []
    ∧ (migrate_old_data MigrationKind.ForReal sScriptConflict).1.2
        = Except.ok () := by
  decide

/-- Claim C3 as amended: running `migrate_old_data(ForReal)` twice in
succession from any state, the second run succeeds and changes nothing
on the filesystem (idempotence of the end state); its report, however,
repeats the skip/not-removing lines whenever a conflict or residual
entries keep the legacy root alive. -/
theorem migrate_forreal_idempotent {α : Type} (s : Fs α) :
    (migrate_old_data MigrationKind.ForReal
          (migrate_old_data MigrationKind.ForReal s).2).2
        = (migrate_old_data MigrationKind.ForReal s).2
    ∧ (migrate_old_data MigrationKind.ForReal
          (migrate_old_data MigrationKind.ForReal s).2).1.2
        = Except.ok () := by
  obtain ⟨ch, hv, ob, osc, obc, nsc, nbc, other⟩ := s
  cases ch <;> cases ob <;> cases osc <;> cases obc <;> cases nsc <;>
    cases nbc <;> cases other <;>
    simp [migrate_old_data, migrate_0_2_0, for_real_ForReal]

/-- Claim C6 counterexample: a windows environment whose LocalAppData
and RoamingAppData folders differ makes `get_config_dir` and
`get_cache_dir` return different paths — the two windows resolvers
consult different known folders. -/
theorem config_dir_ne_cache_dir_windows :
    get_config_dir_windows eDistinctFolders
      ≠ get_cache_dir_windows eDistinctFolders := by
  decide

/-- Claim C6 as amended: on unix, `get_config_dir` returns a path
identical to `get_cache_dir` for every environment state; on windows the
two are resolved from different known folders (RoamingAppData vs
LocalAppData) and coincide exactly when the platform reports the same
path for both folders. -/
theorem config_dir_matches_cache_dir :
    (∀ (α : Type) (s : Fs α), get_config_dir s = get_cache_dir s)
    ∧ (∀ e : WinEnv,
        e.knownFolderPath KnownFolderId.localAppData
          = e.knownFolderPath KnownFolderId.roamingAppData →
        get_config_dir_windows e = get_cache_dir_windows e) := by
  refine ⟨fun α s => rfl, fun e h => ?_⟩
  simp [get_config_dir_windows, get_cache_dir_windows, h]

/-- Claim C6 witness: the unix equality at a concrete state, and the
windows equality at an environment whose known folders coincide. -/
theorem config_dir_matches_cache_dir_witness :
    get_config_dir sOverrideLegacy = get_cache_dir sOverrideLegacy
    ∧ eSameFolders.knownFolderPath KnownFolderId.localAppData
        = eSameFolders.knownFolderPath KnownFolderId.roamingAppData
    ∧ get_config_dir_windows eSameFolders = get_cache_dir_windows eSameFolders :=
  ⟨config_dir_matches_cache_dir.1 Nat sOverrideLegacy, rfl,
   config_dir_matches_cache_dir.2 eSameFolders rfl⟩

/-- Claim C4: when both the legacy and the new-location copy of a cache
subdirectory exist, `migrate_old_data(ForReal)` leaves both copies (and
the legacy root) untouched and records the skip line naming the two
paths; stated for `script-cache` and for `binary-cache`. -/
theorem migrate_conflict_safety {α : Type} (s : Fs α) (home : List String)
    (hch : s.cargoHome = some home) (hob : s.oldBaseExists = true) :
    (∀ a b, s.oldScriptCache = some a → s.newScriptCache = some b →
        (migrate_old_data MigrationKind.ForReal s).2.oldScriptCache = some a
        ∧ (migrate_old_data MigrationKind.ForReal s).2.newScriptCache = some b
        ∧ (migrate_old_data MigrationKind.ForReal s).2.oldBaseExists = true
        ∧ LogLine.didNotMove (oldScriptCachePath home) (newScriptCachePath home)
            ∈ (migrate_old_data MigrationKind.ForReal s).1.1)
    ∧ (∀ a b, s.oldBinaryCache = some a → s.newBinaryCache = some b →
        (migrate_old_data MigrationKind.ForReal s).2.oldBinaryCache = some a
        ∧ (migrate_old_data MigrationKind.ForReal s).2.newBinaryCache = some b
        ∧ (migrate_old_data MigrationKind.ForReal s).2.oldBaseExists = true
        ∧ LogLine.didNotMove (oldBinaryCachePath home) (newBinaryCachePath home)
            ∈ (migrate_old_data MigrationKind.ForReal s).1.1) := by
  obtain ⟨ch, hv, ob, osc, obc, nsc, nbc, other⟩ := s
  simp only at hch hob
  subst hch
  subst hob
  constructor
  · intro a b hsc hns
    simp only at hsc hns
    subst hsc
    subst hns
    cases obc <;> cases nbc <;> cases other <;>
      simp [migrate_old_data, migrate_0_2_0, for_real_ForReal]
  · intro a b hsc hns
    simp only at hsc hns
    subst hsc
    subst hns
    cases osc <;> cases nsc <;> cases other <;>
      simp [migrate_old_data, migrate_0_2_0, for_real_ForReal]

/-- Claim C4 witness: at a state where both copies of both caches exist,
both copies survive the for-real run and both skip lines are in the
report. -/
theorem migrate_conflict_safety_witness :
    sBothConflict.cargoHome = some [] ∧ sBothConflict.oldBaseExists = true
    ∧ ((migrate_old_data MigrationKind.ForReal sBothConflict).2.oldScriptCache
          = some 10
        ∧ (migrate_old_data MigrationKind.ForReal sBothConflict).2.newScriptCache
          = some 11
        ∧ (migrate_old_data MigrationKind.ForReal sBothConflict).2.oldBaseExists
          = true
        ∧ LogLine.didNotMove (oldScriptCachePath []) (newScriptCachePath [])
            ∈ (migrate_old_data MigrationKind.ForReal sBothConflict).1.1)
    ∧ ((migrate_old_data MigrationKind.ForReal sBothConflict).2.oldBinaryCache
          = some 20
        ∧ (migrate_old_data MigrationKind.ForReal sBothConflict).2.newBinaryCache
          = some 21
        ∧ (migrate_old_data MigrationKind.ForReal sBothConflict).2.oldBaseExists
          = true
        ∧ LogLine.didNotMove (oldBinaryCachePath []) (newBinaryCachePath [])
            ∈ (migrate_old_data MigrationKind.ForReal sBothConflict).1.1) :=
  ⟨rfl, rfl,
   (migrate_conflict_safety sBothConflict [] rfl rfl).1 10 11 rfl rfl,
   (migrate_conflict_safety sBothConflict [] rfl rfl).2 20 21 rfl rfl⟩

/-- Claim C5: `get_cache_dir` override precedence — with `$CARGO_HOME`
set it returns the override root exactly unless the legacy
`$CARGO_HOME/.cargo` exists and still holds `script-cache` or
`binary-cache` (then it returns the legacy directory itself); with
`$CARGO_HOME` unset but `$HOME` set it returns `$HOME/.cargo`; with
neither set it fails with a human-blamed configuration error. -/
theorem get_cache_dir_precedence {α : Type} (s : Fs α) :
    (∀ home, s.cargoHome = some home →
        ((s.oldBaseExists = false
            ∨ (s.oldScriptCache = none ∧ s.oldBinaryCache = none)) →
          get_cache_dir s = Except.ok home)
        ∧ (s.oldBaseExists = true →
            (s.oldScriptCache.isSome = true ∨ s.oldBinaryCache.isSome = true) →
            get_cache_dir s = Except.ok (oldBasePath home)))
    ∧ (s.cargoHome = none → ∀ h, s.homeVar = some h →
        get_cache_dir s = Except.ok (h ++ [".cargo"]))
    ∧ (s.cargoHome = none → s.homeVar = none →
        get_cache_dir s
          = Except.error ⟨Blame.human, "neither $CARGO_HOME nor $HOME is defined"⟩) := by
  obtain ⟨ch, hv, ob, osc, obc, nsc, nbc, other⟩ := s
  refine ⟨fun home hch => ?_, fun hch h hhv => ?_, fun hch hhv => ?_⟩ <;>
    simp only at hch
  · subst hch
    constructor
    · rintro (hob | ⟨hosc, hobc⟩) <;> simp only at * <;>
        subst_vars <;> simp [get_cache_dir]
    · intro hob hcache
      simp only at hob
      subst hob
      rcases hcache with hc | hc <;> simp_all [get_cache_dir]
  · subst hch
    simp only at hhv
    subst hhv
    simp [get_cache_dir]
  · subst hch
    simp only at hhv
    subst hhv
    simp [get_cache_dir]

/-- Claim C5 witness: the four precedence cases at concrete states. -/
theorem get_cache_dir_precedence_witness :
    get_cache_dir sOverrideOnly = Except.ok ["ch"]
    ∧ get_cache_dir sOverrideLegacy = Except.ok (oldBasePath ["ch"])
    ∧ get_cache_dir sHomeOnly = Except.ok (["h"] ++ [".cargo"])
    ∧ get_cache_dir sNoEnv
        = Except.error ⟨Blame.human, "neither $CARGO_HOME nor $HOME is defined"⟩ :=
  ⟨((get_cache_dir_precedence sOverrideOnly).1 ["ch"] rfl).1 (Or.inl rfl),
   ((get_cache_dir_precedence sOverrideLegacy).1 ["ch"] rfl).2 rfl (Or.inl rfl),
   (get_cache_dir_precedence sHomeOnly).2.1 rfl ["h"] rfl,
   (get_cache_dir_precedence sNoEnv).2.2 rfl rfl⟩

/-- Claim C8: `current_time` returns the `0` sentinel on any pre-epoch
clock reading and the exact (unwrapped, non-negative) millisecond count
on any in-range reading; `file_last_modified` returns `0` when the
metadata query fails or reports a pre-epoch mtime, and the exact
millisecond count otherwise; both are total (no error is propagated). -/
theorem time_sentinel :
    (∀ now : Timespec, now.sec < 0 ∨ now.nsec < 0 → current_time now = 0)
    ∧ (∀ now : Timespec, 0 ≤ now.sec → 0 ≤ now.nsec →
        now.sec.toNat * 1000 + now.nsec.toNat / 1000000 < 2 ^ 64 →
        current_time now = now.sec.toNat * 1000 + now.nsec.toNat / 1000000)
    ∧ file_last_modified none = 0
    ∧ (∀ m : Int, m ≤ 0 → file_last_modified (some m) = 0)
    ∧ (∀ m : Int, 0 ≤ m → m.toNat * 1000 < 2 ^ 64 →
        file_last_modified (some m) = m.toNat * 1000) := by
  refine ⟨fun now h => ?_, fun now h1 h2 h3 => ?_, rfl, fun m h => ?_,
    fun m h1 h2 => ?_⟩
  · rcases h with h | h <;> simp [current_time, h]
  · have hs : ¬ now.sec < 0 := by omega
    have hn : ¬ now.nsec < 0 := by omega
    have hm : now.sec.toNat * 1000 < 2 ^ 64 := by omega
    simp only [current_time, hs, hn, decide_False, Bool.or_self, Bool.false_eq_true,
      if_false]
    rw [Nat.mod_eq_of_lt hm, Nat.mod_eq_of_lt h3]
  · have hmax : max 0 m = 0 := max_eq_left h
    simp [file_last_modified, hmax]
  · have hmax : max 0 m = m := max_eq_right h1
    simp only [file_last_modified, Option.getD_some, hmax]
    exact Nat.mod_eq_of_lt h2

/-- Claim C8 witness: the sentinel and exact cases at concrete clock
readings and metadata outcomes. -/
theorem time_sentinel_witness :
    current_time ⟨-1, 0⟩ = 0
    ∧ current_time ⟨2, 3000000⟩ = (2 : Int).toNat * 1000 + (3000000 : Int).toNat / 1000000
    ∧ file_last_modified none = 0
    ∧ file_last_modified (some (-7)) = 0
    ∧ file_last_modified (some 4) = (4 : Int).toNat * 1000 :=
  ⟨time_sentinel.1 ⟨-1, 0⟩ (Or.inl (by decide)),
   time_sentinel.2.1 ⟨2, 3000000⟩ (by decide) (by decide) (by decide),
   time_sentinel.2.2.1,
   time_sentinel.2.2.2.1 (-7) (by decide),
   time_sentinel.2.2.2.2 4 (by decide) (by decide)⟩

end CargoScript
